import Mathlib

/-!
Shallow embedding of `src/app/main.py` (solar-challenge-week1), a dashboard
that loads three per-country CSV tables, concatenates them, computes per-country
summary statistics, draws charts, and runs a one-way ANOVA on the GHI column.

Numeric columns are modelled over `ℚ`.  The external libraries (`pandas`,
`scipy`) are modelled by their documented mathematical behaviour where the
script calls them; each such definition carries a comment saying which library
call it models.
-/

/-- A parsed CSV record: the numeric irradiance columns the pipeline reads
(GHI, DNI, DHI).  Other columns of the file are untouched by the pipeline and
are not modelled. -/
structure Record where
  ghi : ℚ
  dni : ℚ
  dhi : ℚ
deriving DecidableEq

/-- A record after the Loader appends the `Country` column
(`data['Country'] = country_name`). -/
structure Row extends Record where
  country : String
deriving DecidableEq

/-- Contents of an existing file: `.error` models a parse failure raised by
`pd.read_csv`, `.ok` a successfully parsed table. -/
abbrev FileContent := Except String (List Record)

/-- The filesystem seen by the script: `none` models a path for which
`os.path.exists` is false. -/
abbrev FS := String → Option FileContent

/-- `load_data(path, country_name)`: raises `FileNotFoundError` when the path
does not exist, otherwise parses the CSV and appends a constant `Country`
column. -/
def load_data (fs : FS) (path : String) (country_name : String) :
    Except String (List Row) :=
  match fs path with
  | none => .error ("File not found: " ++ path)
  | some (.error e) => .error e
  | some (.ok data) => .ok (data.map fun r => { toRecord := r, country := country_name })

/-- `combine_data`: `pd.concat([benin_data, sierra_leone_data, togo_data])`,
an order-stable concatenation. -/
def combine_data (benin_data sierra_leone_data togo_data : List Row) : List Row :=
  benin_data ++ sierra_leone_data ++ togo_data

/-- The three metric columns aggregated by the script. -/
inductive Metric where
  | GHI | DNI | DHI
deriving DecidableEq

/-- Reading a metric column from a row. -/
def Metric.value : Metric → Row → ℚ
  | .GHI, r => r.ghi
  | .DNI, r => r.dni
  | .DHI, r => r.dhi

/-- The rows of one `groupby('Country')` group. -/
def groupRows (d : List Row) (c : String) : List Row :=
  d.filter fun r => r.country = c

/-- One metric column of one country group. -/
def groupVals (d : List Row) (c : String) (m : Metric) : List ℚ :=
  (groupRows d c).map m.value

/-- Arithmetic mean, as computed by pandas `mean` (groups are nonempty wherever
the script evaluates this). -/
def listMean (l : List ℚ) : ℚ :=
  l.sum / l.length

/-- The list sorted ascending (used by the median). -/
def sortQ (l : List ℚ) : List ℚ :=
  List.insertionSort (· ≤ ·) l

/-- pandas `median`: middle element of the sorted values, or the average of the
two middle elements when the count is even. -/
def listMedian (l : List ℚ) : ℚ :=
  let s := sortQ l
  let n := s.length
  if n % 2 = 1 then s.getD (n / 2) 0
  else (s.getD (n / 2 - 1) 0 + s.getD (n / 2) 0) / 2

/-- pandas `std` uses the sample convention (ddof = 1); the reported standard
deviation is the square root of this value.  `none` models the `NaN` pandas
reports when the group has at most one row (divisor `n − 1 = 0`).  Properties
of the reported std (definedness, invariance) are settled on this value, of
which the square root is a deterministic function. -/
def sampleVar (l : List ℚ) : Option ℚ :=
  if l.length ≤ 1 then none
  else some ((l.map fun x => (x - listMean l) ^ 2).sum / ((l.length : ℚ) - 1))

/-- The `(mean, median, std)` triple `agg(['mean', 'median', 'std'])` computes
for one metric of one group; the std is carried as its square (sample
variance). -/
structure Stats where
  mean : ℚ
  median : ℚ
  std_sq : Option ℚ
deriving DecidableEq

/-- The aggregate triple for one list of metric values. -/
def metricStats (l : List ℚ) : Stats :=
  ⟨listMean l, listMedian l, sampleVar l⟩

/-- One row of the Summary Table: statistics for GHI, DNI and DHI of one
country. -/
structure CountryStats where
  ghi : Stats
  dni : Stats
  dhi : Stats
deriving DecidableEq

/-- `groupby('Country')` group keys: the distinct country labels, sorted
ascending (pandas sorts group keys by default). -/
def countryKeys (d : List Row) : List String :=
  List.insertionSort (· ≤ ·) (d.map Row.country).dedup

/-- `summary_statistics(combined_data)`: per-country `mean`/`median`/`std` for
GHI, DNI and DHI, one output row per group key. -/
def summary_statistics (combined_data : List Row) : List (String × CountryStats) :=
  (countryKeys combined_data).map fun c =>
    (c, ⟨metricStats (groupVals combined_data c .GHI),
         metricStats (groupVals combined_data c .DNI),
         metricStats (groupVals combined_data c .DHI)⟩)

/-- The one-way ANOVA F statistic computed by `scipy.stats.f_oneway` for three
groups: `F = (SSB / (k−1)) / (SSW / (N−k))` with `k = 3`, where SSB is the
between-group and SSW the within-group sum of squares.  (`ℚ` division by zero
yields 0; no claim below touches the degenerate `SSW = 0` case.) -/
def anovaF (g1 g2 g3 : List ℚ) : ℚ :=
  let grand := listMean (g1 ++ g2 ++ g3)
  let ssb := (g1.length : ℚ) * (listMean g1 - grand) ^ 2
           + (g2.length : ℚ) * (listMean g2 - grand) ^ 2
           + (g3.length : ℚ) * (listMean g3 - grand) ^ 2
  let ssw := (g1.map fun x => (x - listMean g1) ^ 2).sum
           + (g2.map fun x => (x - listMean g2) ^ 2).sum
           + (g3.map fun x => (x - listMean g3) ^ 2).sum
  let n : ℚ := ((g1 ++ g2 ++ g3).length : ℚ)
  (ssb / 2) / (ssw / (n - 3))

/-- Survival function of the F distribution with `(2, m)` degrees of freedom,
which `f_oneway` evaluates at the F statistic to obtain the p-value (the
script always has `k = 3` groups, so the numerator degree of freedom is 2).
Closed form `(1 + 2x/m)^(−m/2)`, exact whenever `m` is even (all concrete
inputs below have even `m`); at `x = 0` it equals 1 for every `m`. -/
def fSurvival (m : ℕ) (x : ℚ) : ℚ :=
  ((1 + 2 * x / (m : ℚ))⁻¹) ^ (m / 2)

/-- `run_anova`: extracts the GHI column of each of the three datasets, runs
`f_oneway` and returns the p-value. -/
def run_anova (benin_data sierra_leone_data togo_data : List Row) : ℚ :=
  let benin_ghi := benin_data.map fun r => r.ghi
  let sierra_leone_ghi := sierra_leone_data.map fun r => r.ghi
  let togo_ghi := togo_data.map fun r => r.ghi
  fSurvival (benin_ghi.length + sierra_leone_ghi.length + togo_ghi.length - 3)
    (anovaF benin_ghi sierra_leone_ghi togo_ghi)

/-- Value displayed by a Python format `{p:.nf}`: `p` rounded to `n` decimal
places.  (Python rounds the nearest binary float, breaking exact ties to even;
no input below sits on a tie, where all rounding modes agree.) -/
def roundTo (n : ℕ) (q : ℚ) : ℚ :=
  (⌊q * 10 ^ n + 1 / 2⌋ : ℚ) / 10 ^ n

/-- The per-country value lists behind `plot_boxplots` (one box per group). -/
def boxplotGroups (d : List Row) (m : Metric) : List (String × List ℚ) :=
  (countryKeys d).map fun c => (c, groupVals d c m)

/-- The series `combined_data.groupby('Country')['GHI'].mean()`: one
`(country, mean GHI)` pair per group key, in key order. -/
def avgGhiSeries (d : List Row) : List (String × ℚ) :=
  (countryKeys d).map fun c => (c, listMean (groupVals d c .GHI))

/-- Bar order of `plot_average_ghi`: `.sort_values()` on the mean-GHI series,
ascending.  For series of fewer than 16 elements numpy's default sort runs an
insertion sort, which is stable; the series here always has one entry per
country, so the sort is modelled as an insertion sort by value. -/
def plot_average_ghi_order (d : List Row) : List (String × ℚ) :=
  List.insertionSort (fun a b => a.2 ≤ b.2) (avgGhiSeries d)

/-- The three states of the sidebar radio control. -/
inductive ReportSection where
  | summaryStats | boxplots | averageGhi
deriving DecidableEq

/-- One element rendered to the page. -/
inductive Output where
  | summaryTable (table : List (String × CountryStats))
  | boxplot (metric : Metric) (groups : List (String × List ℚ))
  | avgGhiChart (bars : List (String × ℚ))
  | anovaText (displayed : ℚ)
  | errorBanner (msg : String)
deriving DecidableEq

/-- Path of the Benin dataset. -/
def benin_path : String := "../notebooks/data/benin_clean.csv"

/-- Path of the Sierra Leone dataset. -/
def sierra_leone_path : String := "../notebooks/data/sierraleone-bumbuna_clean.csv"

/-- Path of the Togo dataset. -/
def togo_path : String := "../notebooks/data/togo-dapaong_qc_clean.csv"

/-- The section rendered for the selected radio state (the metric dropdown is
only read in the Boxplots state). -/
def sectionOutput (sec : ReportSection) (metric : Metric) (combined_data : List Row) :
    Output :=
  match sec with
  | .summaryStats => .summaryTable (summary_statistics combined_data)
  | .boxplots => .boxplot metric (boxplotGroups combined_data metric)
  | .averageGhi => .avgGhiChart (plot_average_ghi_order combined_data)

/-- The dynamic page content produced by one run of the script's
`try`/`except` block: load the three datasets, combine, render the selected
section, then render the ANOVA p-value formatted with `:.4f`.  Any exception
(all fallible steps are the three loads, which precede every render call)
reaches the `except` handler, which renders the single banner
`st.error(f"An error occurred: {e}")`. -/
def script (fs : FS) (sec : ReportSection) (metric : Metric) : List Output :=
  match load_data fs benin_path "Benin" with
  | .error e => [.errorBanner ("An error occurred: " ++ e)]
  | .ok benin_data =>
  match load_data fs sierra_leone_path "Sierra Leone" with
  | .error e => [.errorBanner ("An error occurred: " ++ e)]
  | .ok sierra_leone_data =>
  match load_data fs togo_path "Togo" with
  | .error e => [.errorBanner ("An error occurred: " ++ e)]
  | .ok togo_data =>
    let combined_data := combine_data benin_data sierra_leone_data togo_data
    [sectionOutput sec metric combined_data,
     .anovaText (roundTo 4 (run_anova benin_data sierra_leone_data togo_data))]

/-! ### Helper lemmas -/

/-- The mean depends only on the multiset of values. -/
theorem listMean_congr_perm {l l' : List ℚ} (h : l.Perm l') : listMean l = listMean l' := by
  simp [listMean, h.sum_eq, h.length_eq]

/-- Sorting depends only on the multiset of values. -/
theorem sortQ_congr_perm {l l' : List ℚ} (h : l.Perm l') : sortQ l = sortQ l' :=
  List.eq_of_perm_of_sorted
    (((List.perm_insertionSort _ l).trans h).trans (List.perm_insertionSort _ l').symm)
    (List.sorted_insertionSort _ l) (List.sorted_insertionSort _ l')

/-- The median depends only on the multiset of values. -/
theorem listMedian_congr_perm {l l' : List ℚ} (h : l.Perm l') :
    listMedian l = listMedian l' := by
  simp [listMedian, sortQ_congr_perm h]

/-- The sample variance depends only on the multiset of values. -/
theorem sampleVar_congr_perm {l l' : List ℚ} (h : l.Perm l') : sampleVar l = sampleVar l' := by
  simp only [sampleVar, h.length_eq, listMean_congr_perm h, (h.map _).sum_eq]

/-- The aggregate triple depends only on the multiset of values. -/
theorem metricStats_congr_perm {l l' : List ℚ} (h : l.Perm l') :
    metricStats l = metricStats l' := by
  simp [metricStats, listMean_congr_perm h, listMedian_congr_perm h, sampleVar_congr_perm h]

/-- Group keys depend only on the multiset of rows. -/
theorem countryKeys_congr_perm {d d' : List Row} (h : d.Perm d') :
    countryKeys d = countryKeys d' :=
  List.eq_of_perm_of_sorted
    (((List.perm_insertionSort _ _).trans ((h.map _).dedup)).trans
      (List.perm_insertionSort _ _).symm)
    (List.sorted_insertionSort _ _) (List.sorted_insertionSort _ _)

/-- A group's column of a permuted table is a permutation of the original. -/
theorem groupVals_perm {d d' : List Row} (c : String) (m : Metric) (h : d.Perm d') :
    (groupVals d c m).Perm (groupVals d' c m) :=
  (h.filter _).map _

/-- Minimum of a nonempty list of values (0 for the empty list, never evaluated there). -/
def listMin : List ℚ → ℚ
  | [] => 0
  | x :: xs => xs.foldr min x

/-- Maximum of a nonempty list of values (0 for the empty list, never evaluated there). -/
def listMax : List ℚ → ℚ
  | [] => 0
  | x :: xs => xs.foldr max x

theorem foldr_min_le_init (x : ℚ) (xs : List ℚ) : xs.foldr min x ≤ x := by
  induction xs with
  | nil => exact le_refl x
  | cons a as ih => exact le_trans (min_le_right a _) ih

theorem foldr_min_le_mem (x : ℚ) {xs : List ℚ} {y : ℚ} (hy : y ∈ xs) :
    xs.foldr min x ≤ y := by
  induction xs with
  | nil => cases hy
  | cons a as ih =>
    rcases List.mem_cons.mp hy with rfl | hy
    · exact min_le_left y _
    · exact le_trans (min_le_right a _) (ih hy)

theorem init_le_foldr_max (x : ℚ) (xs : List ℚ) : x ≤ xs.foldr max x := by
  induction xs with
  | nil => exact le_refl x
  | cons a as ih => exact le_trans ih (le_max_right a _)

theorem mem_le_foldr_max (x : ℚ) {xs : List ℚ} {y : ℚ} (hy : y ∈ xs) :
    y ≤ xs.foldr max x := by
  induction xs with
  | nil => cases hy
  | cons a as ih =>
    rcases List.mem_cons.mp hy with rfl | hy
    · exact le_max_left y _
    · exact le_trans (ih hy) (le_max_right a _)

theorem listMin_le_of_mem {l : List ℚ} {y : ℚ} (hy : y ∈ l) : listMin l ≤ y := by
  cases l with
  | nil => cases hy
  | cons x xs =>
    rcases List.mem_cons.mp hy with rfl | hy
    · exact foldr_min_le_init y xs
    · exact foldr_min_le_mem x hy

theorem le_listMax_of_mem {l : List ℚ} {y : ℚ} (hy : y ∈ l) : y ≤ listMax l := by
  cases l with
  | nil => cases hy
  | cons x xs =>
    rcases List.mem_cons.mp hy with rfl | hy
    · exact init_le_foldr_max y xs
    · exact mem_le_foldr_max x hy

/-- The mean of a nonempty list lies between its minimum and its maximum. -/
theorem listMean_between (l : List ℚ) (hl : l ≠ []) :
    listMin l ≤ listMean l ∧ listMean l ≤ listMax l := by
  have hn : 0 < (l.length : ℚ) := by
    have := List.length_pos.mpr hl
    exact_mod_cast this
  constructor
  · have h1 : l.length • listMin l ≤ l.sum :=
      List.card_nsmul_le_sum l (listMin l) fun x hx => listMin_le_of_mem hx
    rw [nsmul_eq_mul] at h1
    rw [listMean, le_div_iff₀ hn]
    linarith
  · have h1 : l.sum ≤ l.length • listMax l :=
      List.sum_le_card_nsmul l (listMax l) fun x hx => le_listMax_of_mem hx
    rw [nsmul_eq_mul] at h1
    rw [listMean, div_le_iff₀ hn]
    linarith

/-- A successful triple of loads renders the selected section followed by the
formatted ANOVA line. -/
theorem script_eq_of_loads (fs : FS) (sec : ReportSection) (m : Metric) {b s t : List Row}
    (hb : load_data fs benin_path "Benin" = .ok b)
    (hs : load_data fs sierra_leone_path "Sierra Leone" = .ok s)
    (ht : load_data fs togo_path "Togo" = .ok t) :
    script fs sec m = [sectionOutput sec m (combine_data b s t),
      Output.anovaText (roundTo 4 (run_anova b s t))] := by
  simp only [script, hb, hs, ht]

/-! ### Concrete data used by witnesses and scenario claims -/

/-- Rows of one synthetic country dataset with GHI = DNI = DHI. -/
def rws (vs : List ℚ) (c : String) : List Row :=
  vs.map fun v => ⟨⟨v, v, v⟩, c⟩

/-- Benin dataset of the identical-groups scenario. -/
def b0 : List Row := rws [10, 20, 30] "Benin"

/-- Sierra Leone dataset of the identical-groups scenario. -/
def s0 : List Row := rws [10, 20, 30] "Sierra Leone"

/-- Togo dataset of the identical-groups scenario. -/
def t0 : List Row := rws [10, 20, 30] "Togo"

/-- A Togo dataset with a different mean, giving a p-value off the rounding
grid. -/
def t1 : List Row := rws [30, 30, 30] "Togo"

/-- A concrete filesystem serving synthetic parseable files at the three
expected paths and nothing else. -/
def fs1 : FS := fun p =>
  if p = benin_path then some (.ok (([10, 20, 30] : List ℚ).map fun v => ⟨v, v, v⟩))
  else if p = sierra_leone_path then some (.ok (([10, 20, 30] : List ℚ).map fun v => ⟨v, v, v⟩))
  else if p = togo_path then some (.ok (([30, 30, 30] : List ℚ).map fun v => ⟨v, v, v⟩))
  else none

theorem fs1_loads_benin : load_data fs1 benin_path "Benin" = .ok b0 := rfl

theorem fs1_loads_sl : load_data fs1 sierra_leone_path "Sierra Leone" = .ok s0 := rfl

theorem fs1_loads_togo : load_data fs1 togo_path "Togo" = .ok t1 := rfl

/-! ### Claims -/

/-- C1: the Combined Dataset's row count is the sum of the three input
Datasets' row counts, and its rows are the inputs' rows in source order
(Benin, Sierra Leone, Togo), each input's internal order preserved. -/
theorem combine_data_rowcount_and_order (b s t : List Row) :
    (combine_data b s t).length = b.length + s.length + t.length ∧
    combine_data b s t = b ++ s ++ t :=
  ⟨by simp [combine_data, Nat.add_assoc], rfl⟩

/-- C2: loading a nonexistent path fails with the missing-file error (never a
silent empty result); loading an existing parseable file returns the parsed
rows with the Country column equal to the given label in every row and the
parsed columns untouched. -/
theorem load_data_missing_file_or_tags_country (fs : FS) (path country : String) :
    (fs path = none → load_data fs path country = .error ("File not found: " ++ path)) ∧
    ∀ recs, fs path = some (.ok recs) →
      ∃ rows, load_data fs path country = .ok rows ∧
        (∀ r ∈ rows, r.country = country) ∧ rows.map Row.toRecord = recs := by
  constructor
  · intro h
    simp [load_data, h]
  · intro recs h
    refine ⟨recs.map fun r => ⟨r, country⟩, by simp [load_data, h], ?_, ?_⟩
    · intro r hr
      obtain ⟨a, _, rfl⟩ := List.mem_map.mp hr
      rfl
    · rw [List.map_map]
      exact (List.map_congr_left fun a _ => rfl).trans (List.map_id recs)

/-- Witness for C2 at a concrete filesystem: a missing path errors; the Benin
path loads tagged rows. -/
theorem load_data_missing_file_or_tags_country_witness :
    load_data fs1 "missing.csv" "X" = .error ("File not found: " ++ "missing.csv") ∧
    ∃ rows, load_data fs1 benin_path "Benin" = .ok rows ∧
      (∀ r ∈ rows, r.country = "Benin") ∧
      rows.map Row.toRecord = ([10, 20, 30] : List ℚ).map fun v => ⟨v, v, v⟩ :=
  ⟨(load_data_missing_file_or_tags_country fs1 "missing.csv" "X").1 rfl,
   (load_data_missing_file_or_tags_country fs1 benin_path "Benin").2 _ rfl⟩

/-- C3: the Summary Table depends only on the multiset of rows of the Combined
Dataset: permuting the rows (in particular permuting them within each country
group) leaves the Summary Table unchanged. -/
theorem summary_statistics_perm_invariant (d d' : List Row) (h : d.Perm d') :
    summary_statistics d = summary_statistics d' := by
  unfold summary_statistics
  rw [countryKeys_congr_perm h]
  refine List.map_congr_left fun c _ => ?_
  have g : ∀ m : Metric, metricStats (groupVals d c m) = metricStats (groupVals d' c m) :=
    fun m => metricStats_congr_perm (groupVals_perm c m h)
  rw [g .GHI, g .DNI, g .DHI]

/-- Witness for C3: swapping two rows leaves the Summary Table unchanged. -/
theorem summary_statistics_perm_invariant_witness :
    (([⟨⟨1, 2, 3⟩, "A"⟩, ⟨⟨4, 5, 6⟩, "B"⟩] : List Row)).Perm
      [⟨⟨4, 5, 6⟩, "B"⟩, ⟨⟨1, 2, 3⟩, "A"⟩] ∧
    summary_statistics [⟨⟨1, 2, 3⟩, "A"⟩, ⟨⟨4, 5, 6⟩, "B"⟩] =
      summary_statistics [⟨⟨4, 5, 6⟩, "B"⟩, ⟨⟨1, 2, 3⟩, "A"⟩] :=
  ⟨List.Perm.swap _ _ _,
   summary_statistics_perm_invariant _ _ (List.Perm.swap _ _ _)⟩

/-- C9: in every sidebar state, the ANOVA runs on a successful load and its
p-value line is rendered alongside (right after) the selected section's
output. -/
theorem anova_displayed_in_every_state (fs : FS) (sec : ReportSection) (m : Metric)
    (b s t : List Row)
    (hb : load_data fs benin_path "Benin" = .ok b)
    (hs : load_data fs sierra_leone_path "Sierra Leone" = .ok s)
    (ht : load_data fs togo_path "Togo" = .ok t) :
    script fs sec m = [sectionOutput sec m (combine_data b s t),
      Output.anovaText (roundTo 4 (run_anova b s t))] :=
  script_eq_of_loads fs sec m hb hs ht

/-- Witness for C9 in the Summary Statistics state at a concrete filesystem. -/
theorem anova_displayed_in_every_state_witness :
    script fs1 .summaryStats .GHI =
      [sectionOutput .summaryStats .GHI (combine_data b0 s0 t1),
       Output.anovaText (roundTo 4 (run_anova b0 s0 t1))] :=
  anova_displayed_in_every_state fs1 .summaryStats .GHI b0 s0 t1 fs1_loads_benin
    fs1_loads_sl fs1_loads_togo

/-- C8: every pipeline failure is caught exactly once at the top level: a
failing run renders exactly one error banner and nothing else (no partial
sections), and a successful run renders no banner. -/
theorem pipeline_single_error_boundary (fs : FS) (sec : ReportSection) (m : Metric) :
    (∃ e, script fs sec m = [Output.errorBanner e]) ∨
    ∀ e, Output.errorBanner e ∉ script fs sec m := by
  rcases hb : load_data fs benin_path "Benin" with e | b
  · exact Or.inl ⟨"An error occurred: " ++ e, by simp [script, hb]⟩
  rcases hs : load_data fs sierra_leone_path "Sierra Leone" with e | s
  · exact Or.inl ⟨"An error occurred: " ++ e, by simp [script, hb, hs]⟩
  rcases ht : load_data fs togo_path "Togo" with e | t
  · exact Or.inl ⟨"An error occurred: " ++ e, by simp [script, hb, hs, ht]⟩
  right
  intro e he
  rw [script_eq_of_loads fs sec m hb hs ht] at he
  rcases List.mem_cons.mp he with h | h
  · cases sec <;> simp [sectionOutput] at h
  · simp at h

/-- C5: with GHI = {10, 20, 30} for all three countries, the ANOVA p-value is
exactly 1 and the Summary Table's mean GHI is 20 for each country. -/
theorem anova_identical_groups_pvalue_one :
    run_anova b0 s0 t0 = 1 ∧
    (summary_statistics (combine_data b0 s0 t0)).map (fun p => (p.1, p.2.ghi.mean)) =
      [("Benin", 20), ("Sierra Leone", 20), ("Togo", 20)] := by
  constructor
  · norm_num [run_anova, anovaF, fSurvival, listMean, b0, s0, t0, rws]
  · simp +decide [summary_statistics, combine_data, countryKeys, metricStats, groupVals,
      groupRows, listMean, Metric.value, b0, s0, t0, rws, List.insertionSort,
      List.orderedInsert, String.le_iff_toList_le]
    norm_num

/-- C4: the bar chart's bars are exactly the per-country mean-GHI series
reordered ascending by value: one bar per country, ordering non-decreasing in
mean GHI, and two countries with equal means keep the series' (input) order. -/
theorem plot_average_ghi_sorted_and_stable (d : List Row) :
    (plot_average_ghi_order d).Perm (avgGhiSeries d) ∧
    (plot_average_ghi_order d).Pairwise (fun a b => a.2 ≤ b.2) ∧
    ∀ a b : String × ℚ, a.2 = b.2 → List.Sublist [a, b] (avgGhiSeries d) →
      List.Sublist [a, b] (plot_average_ghi_order d) := by
  refine ⟨List.perm_insertionSort _ _, ?_, ?_⟩
  · haveI h1 : IsTotal (String × ℚ) (fun a b => a.2 ≤ b.2) := ⟨fun a b => le_total a.2 b.2⟩
    haveI h2 : IsTrans (String × ℚ) (fun a b => a.2 ≤ b.2) :=
      ⟨fun _ _ _ hab hbc => le_trans hab hbc⟩
    exact List.sorted_insertionSort _ _
  · intro a b hab hsub
    exact List.pair_sublist_insertionSort (le_of_eq hab) hsub

/-- Witness for C4 on the identical-means scenario: the output is sorted, and
the tied pair (Benin, Togo) appears in input order. -/
theorem plot_average_ghi_sorted_and_stable_witness :
    (plot_average_ghi_order (combine_data b0 s0 t0)).Pairwise
      (fun a b => a.2 ≤ b.2) ∧
    List.Sublist [("Benin", (20 : ℚ)), ("Togo", 20)]
      (plot_average_ghi_order (combine_data b0 s0 t0)) := by
  have hseries : avgGhiSeries (combine_data b0 s0 t0) =
      [("Benin", 20), ("Sierra Leone", 20), ("Togo", 20)] := by
    simp +decide [avgGhiSeries, countryKeys, combine_data, groupVals, groupRows, listMean,
      Metric.value, b0, s0, t0, rws, List.insertionSort, List.orderedInsert,
      String.le_iff_toList_le]
    norm_num
  refine ⟨(plot_average_ghi_sorted_and_stable (combine_data b0 s0 t0)).2.1, ?_⟩
  apply (plot_average_ghi_sorted_and_stable (combine_data b0 s0 t0)).2.2
    ("Benin", (20 : ℚ)) ("Togo", (20 : ℚ)) rfl
  rw [hseries]
  decide

/-- C6 fails on the code: line 121 formats the p-value with `:.4f` (four
decimal places), not two; at this input the four- and two-decimal roundings
differ (p = 8/27 ≈ 0.2963 vs 0.30), so the displayed text is not the p-value
rounded to two decimals. -/
theorem anova_display_two_decimals_counterexample :
    script fs1 .averageGhi .GHI =
      [Output.avgGhiChart [("Benin", 20), ("Sierra Leone", 20), ("Togo", 30)],
       Output.anovaText (roundTo 4 (run_anova b0 s0 t1))] ∧
    roundTo 4 (run_anova b0 s0 t1) ≠ roundTo 2 (run_anova b0 s0 t1) := by
  constructor
  · rw [script_eq_of_loads fs1 .averageGhi .GHI fs1_loads_benin fs1_loads_sl fs1_loads_togo]
    have hbars : plot_average_ghi_order (combine_data b0 s0 t1) =
        [("Benin", 20), ("Sierra Leone", 20), ("Togo", 30)] := by
      simp +decide [plot_average_ghi_order, avgGhiSeries, countryKeys, combine_data,
        groupVals, groupRows, listMean, Metric.value, b0, s0, t1, rws, List.insertionSort,
        List.orderedInsert, String.le_iff_toList_le]
      norm_num
    simp [sectionOutput, hbars]
  · norm_num [run_anova, anovaF, fSurvival, listMean, roundTo, b0, s0, t1, rws]

/-- C6 amended: on every successful render, the displayed p-value text is the
ANOVA p-value rounded to four decimal places, and that line is rendered. -/
theorem anova_display_four_decimals (fs : FS) (sec : ReportSection) (m : Metric)
    (b s t : List Row)
    (hb : load_data fs benin_path "Benin" = .ok b)
    (hs : load_data fs sierra_leone_path "Sierra Leone" = .ok s)
    (ht : load_data fs togo_path "Togo" = .ok t) :
    (∀ q, Output.anovaText q ∈ script fs sec m → q = roundTo 4 (run_anova b s t)) ∧
    Output.anovaText (roundTo 4 (run_anova b s t)) ∈ script fs sec m := by
  rw [script_eq_of_loads fs sec m hb hs ht]
  constructor
  · intro q hq
    rcases List.mem_cons.mp hq with h | h
    · cases sec <;> simp [sectionOutput] at h
    · have h' := List.mem_singleton.mp h
      injection h'
  · simp

/-- Witness for C6's amended claim at a concrete filesystem and state. -/
theorem anova_display_four_decimals_witness :
    Output.anovaText (roundTo 4 (run_anova b0 s0 t1)) ∈ script fs1 .boxplots .DNI :=
  (anova_display_four_decimals fs1 .boxplots .DNI b0 s0 t1 fs1_loads_benin fs1_loads_sl
    fs1_loads_togo).2

/-- A Summary Table row for `c` is built from `c`'s groups, and `c` occurs in
the data. -/
theorem mem_summary_statistics {d : List Row} {c : String} {st : CountryStats}
    (h : (c, st) ∈ summary_statistics d) :
    st = ⟨metricStats (groupVals d c .GHI), metricStats (groupVals d c .DNI),
          metricStats (groupVals d c .DHI)⟩ ∧ ∃ r ∈ d, r.country = c := by
  obtain ⟨c', hc', heq⟩ := List.mem_map.mp h
  simp only [Prod.mk.injEq] at heq
  obtain ⟨rfl, rfl⟩ := heq
  refine ⟨rfl, ?_⟩
  simpa only [countryKeys, List.mem_insertionSort, List.mem_dedup, List.mem_map] using hc'

/-- C7: for every country row of the Summary Table and every metric, the
reported mean lies between the minimum and the maximum of that country's
values for that metric. -/
theorem summary_mean_in_min_max (d : List Row) (c : String) (st : CountryStats)
    (h : (c, st) ∈ summary_statistics d) :
    (listMin (groupVals d c .GHI) ≤ st.ghi.mean ∧
     st.ghi.mean ≤ listMax (groupVals d c .GHI)) ∧
    (listMin (groupVals d c .DNI) ≤ st.dni.mean ∧
     st.dni.mean ≤ listMax (groupVals d c .DNI)) ∧
    (listMin (groupVals d c .DHI) ≤ st.dhi.mean ∧
     st.dhi.mean ≤ listMax (groupVals d c .DHI)) := by
  obtain ⟨rfl, r, hr, hrc⟩ := mem_summary_statistics h
  have hrow : r ∈ groupRows d c := List.mem_filter.mpr ⟨hr, by simp [hrc]⟩
  have hne : ∀ m : Metric, groupVals d c m ≠ [] := fun m =>
    List.ne_nil_of_mem (List.mem_map_of_mem m.value hrow)
  exact ⟨⟨(listMean_between _ (hne .GHI)).1, (listMean_between _ (hne .GHI)).2⟩,
         ⟨(listMean_between _ (hne .DNI)).1, (listMean_between _ (hne .DNI)).2⟩,
         ⟨(listMean_between _ (hne .DHI)).1, (listMean_between _ (hne .DHI)).2⟩⟩

/-- The Summary Table row of the identical-groups scenario. -/
def cs20 : CountryStats :=
  ⟨⟨20, 20, some 100⟩, ⟨20, 20, some 100⟩, ⟨20, 20, some 100⟩⟩

/-- Witness for C7: Benin's row of the scenario Summary Table. -/
theorem summary_mean_in_min_max_witness :
    (listMin (groupVals (combine_data b0 s0 t0) "Benin" .GHI) ≤ cs20.ghi.mean ∧
     cs20.ghi.mean ≤ listMax (groupVals (combine_data b0 s0 t0) "Benin" .GHI)) ∧
    (listMin (groupVals (combine_data b0 s0 t0) "Benin" .DNI) ≤ cs20.dni.mean ∧
     cs20.dni.mean ≤ listMax (groupVals (combine_data b0 s0 t0) "Benin" .DNI)) ∧
    (listMin (groupVals (combine_data b0 s0 t0) "Benin" .DHI) ≤ cs20.dhi.mean ∧
     cs20.dhi.mean ≤ listMax (groupVals (combine_data b0 s0 t0) "Benin" .DHI)) := by
  have hsum : summary_statistics (combine_data b0 s0 t0) =
      [("Benin", cs20), ("Sierra Leone", cs20), ("Togo", cs20)] := by
    simp +decide [summary_statistics, countryKeys, combine_data, metricStats, groupVals,
      groupRows, listMean, listMedian, sampleVar, sortQ, Metric.value, b0, s0, t0, rws,
      cs20, List.insertionSort, List.orderedInsert, String.le_iff_toList_le]
    norm_num
  exact summary_mean_in_min_max (combine_data b0 s0 t0) "Benin" cs20 (by rw [hsum]; simp)

/-- For a single value the aggregates are the value itself with undefined
sample deviation. -/
theorem metricStats_singleton (v : ℚ) : metricStats [v] = ⟨v, v, none⟩ := by
  unfold metricStats listMean listMedian sampleVar sortQ
  norm_num [List.insertionSort, List.orderedInsert]

/-- C10: the Aggregator's std is the sample standard deviation (ddof = 1): a
country whose group is exactly one row reports an undefined (NaN) std for each
metric, while its mean and median equal that row's values. -/
theorem single_row_group_std_undefined (d : List Row) (c : String) (st : CountryStats)
    (r : Row) (hmem : (c, st) ∈ summary_statistics d) (h : groupRows d c = [r]) :
    (st.ghi.std_sq = none ∧ st.ghi.mean = r.ghi ∧ st.ghi.median = r.ghi) ∧
    (st.dni.std_sq = none ∧ st.dni.mean = r.dni ∧ st.dni.median = r.dni) ∧
    (st.dhi.std_sq = none ∧ st.dhi.mean = r.dhi ∧ st.dhi.median = r.dhi) := by
  obtain ⟨rfl, -⟩ := mem_summary_statistics hmem
  have hstats : ∀ m : Metric, metricStats (groupVals d c m) = ⟨m.value r, m.value r, none⟩ :=
    fun m => by rw [groupVals, h, List.map_singleton]; exact metricStats_singleton (m.value r)
  simp [hstats .GHI, hstats .DNI, hstats .DHI, Metric.value]

/-- The single row of the one-row dataset. -/
def r7 : Row := ⟨⟨7, 8, 9⟩, "X"⟩

/-- The Summary Table row of the one-row dataset. -/
def st7 : CountryStats := ⟨⟨7, 7, none⟩, ⟨8, 8, none⟩, ⟨9, 9, none⟩⟩

/-- Witness for C10 on a one-row dataset. -/
theorem single_row_group_std_undefined_witness :
    (st7.ghi.std_sq = none ∧ st7.ghi.mean = r7.ghi ∧ st7.ghi.median = r7.ghi) ∧
    (st7.dni.std_sq = none ∧ st7.dni.mean = r7.dni ∧ st7.dni.median = r7.dni) ∧
    (st7.dhi.std_sq = none ∧ st7.dhi.mean = r7.dhi ∧ st7.dhi.median = r7.dhi) := by
  have hsum : summary_statistics [r7] = [("X", st7)] := by
    simp +decide [summary_statistics, countryKeys, metricStats, groupVals, groupRows,
      listMean, listMedian, sampleVar, sortQ, Metric.value, r7, st7, List.insertionSort,
      List.orderedInsert]
  exact single_row_group_std_undefined [r7] "X" st7 r7 (by rw [hsum]; simp) (by decide)
